import Mathlib

/-!
Verification of the minsandbox repository (package `sandbox`): a driver for
the `isolate` process-isolation primitive.  The Go source in
`sandbox/sandbox.go` and `sandbox/util.go` is shallowly embedded below.

Modelling conventions:
* Go strings are Lean `String`s; byte-level operations are modelled on
  `String.data` (the character list).  `strings.HasPrefix`, `strings.Contains`,
  `strings.Cut` and `strings.TrimSpace` (on ASCII input) are re-implemented
  on character lists so that every definition kernel-evaluates.
* Go `float64` limit values are modelled as exact decimal numbers
  (`Dec`: a mantissa and a power-of-ten exponent); `strconv.FormatFloat`
  with precision `-1` (shortest round-tripping output) is modelled as the
  exact decimal rendering with trailing zeros stripped, which is its
  behaviour on decimal-valued inputs.
* `strconv.Atoi` (base-10, 64-bit `int`, range errors clamped, syntax errors
  yielding 0 because the caller discards the error) is modelled over `Int`.
  `strconv.ParseFloat` is modelled over `GoFloat` — an exact rational, an
  infinity, or NaN — with Go's full accepted grammar: plain and exponent
  decimal forms, case-insensitive `inf`/`infinity` (optionally signed) and
  `nan` (unsigned), well-placed digit-group underscores, and hexadecimal
  floats with a required binary exponent; a syntax error yields 0 because
  the caller discards the error.  Finite values are kept as the exact
  rational the input denotes; the rounding to nearest `float64` — and the
  overflow to an infinity at the `float64` range boundary that accompanies
  that rounding — is outside the model.
* Effectful context (the outcome of spawning the primitive, of creating a
  temporary file, of `exec.LookPath`, of a `--init` invocation) is passed in
  explicitly as data, so the control flow of the Go functions becomes a pure
  function of those outcomes.
* Mutexes, logging and file-system staging helpers are out of the model:
  they do not affect the values computed by the functions under study.
-/

/-! ## String helpers (models of the `strings` package functions used) -/

/-- Boolean list-prefix test (model of `strings.HasPrefix` on `String.data`). -/
def listIsPfxOf : List Char → List Char → Bool
  | [], _ => true
  | _ :: _, [] => false
  | a :: as, b :: bs => a = b && listIsPfxOf as bs

/-- Model of Go `strings.HasPrefix s pre`. -/
def strHasPfx (s pre : String) : Bool := listIsPfxOf pre.data s.data

/-- Boolean list-infix test. -/
def listIsSubstr (needle : List Char) : List Char → Bool
  | [] => needle.isEmpty
  | c :: cs => listIsPfxOf needle (c :: cs) || listIsSubstr needle cs

/-- Model of Go `strings.Contains s sub`. -/
def strContains (s sub : String) : Bool := listIsSubstr sub.data s.data

/-- The ASCII white-space characters trimmed by Go `strings.TrimSpace`. -/
def isGoSpace (c : Char) : Bool :=
  c = ' ' || c = '\t' || c = '\n' || c = '\x0b' || c = '\x0c' || c = '\r'

/-- Model of Go `strings.TrimSpace` (restricted to ASCII white space). -/
def goTrimSpace (s : String) : String :=
  String.mk (((s.data.dropWhile isGoSpace).reverse.dropWhile isGoSpace).reverse)

/-- Cut a character list at the first `:`;
`none` when no separator occurs (model of the `found` result of `strings.Cut`). -/
def goCutAux : List Char → Option (List Char × List Char)
  | [] => none
  | c :: cs =>
    if c = ':' then some ([], cs)
    else (goCutAux cs).map (fun p => (c :: p.1, p.2))

/-- Model of Go `strings.Cut s ":"`. -/
def goCut (s : String) : Option (String × String) :=
  (goCutAux s.data).map (fun p => (String.mk p.1, String.mk p.2))

/-- Split a character list at newline characters. -/
def splitNl : List Char → List (List Char)
  | [] => [[]]
  | c :: cs =>
    if c = '\n' then [] :: splitNl cs
    else
      match splitNl cs with
      | [] => [[c]]
      | l :: ls => (c :: l) :: ls

/-! ## Numeric parsing and rendering (models of the `strconv` functions used) -/

/-- Value of a decimal digit list, most significant first. -/
def digitsToNat (l : List Char) : Nat :=
  l.foldl (fun a c => a * 10 + (c.toNat - 48)) 0

/-- Consume an optional leading sign, as `strconv` does. -/
def parseSign : List Char → Int × List Char
  | '+' :: r => (1, r)
  | '-' :: r => (-1, r)
  | l => (1, l)

/-- Longest leading run of decimal digits and the remainder. -/
def spanDigits (l : List Char) : List Char × List Char :=
  (l.takeWhile Char.isDigit, l.dropWhile Char.isDigit)

/-- Clamp to the signed 64-bit range, as `strconv.ParseInt` does on a range
error (the parsed value is still returned alongside the error). -/
def clampInt (i : Int) : Int :=
  if i > 2 ^ 63 - 1 then 2 ^ 63 - 1
  else if i < -(2 ^ 63) then -(2 ^ 63) else i

/-- Whether a string is a syntactically valid base-10 integer for
`strconv.Atoi`: an optional sign followed by a non-empty digit run. -/
def intSyntaxOK (s : String) : Bool :=
  let (_, ds) := parseSign s.data
  !ds.isEmpty && ds.all Char.isDigit

/-- Model of `v, _ := strconv.Atoi(s)`: the error is discarded by every
caller in this repository, so a syntax error yields 0 and a range error
yields the clamped value. -/
def goAtoi (s : String) : Int :=
  let (sgn, ds) := parseSign s.data
  if ds.isEmpty || !ds.all Char.isDigit then 0
  else clampInt (sgn * digitsToNat ds)

/-- Parse a decimal mantissa: digit run with an optional fractional part, or
a bare fractional part.  Returns the combined digits' value, the number of
fractional digits, and the unconsumed remainder. -/
def parseMantissa (l : List Char) : Option (Nat × Nat × List Char) :=
  let (ip, r1) := spanDigits l
  match r1 with
  | '.' :: r2 =>
    let (fp, r3) := spanDigits r2
    if ip.isEmpty && fp.isEmpty then none
    else some (digitsToNat (ip ++ fp), fp.length, r3)
  | _ => if ip.isEmpty then none else some (digitsToNat ip, 0, r1)

/-- Parse the remainder after the mantissa: either nothing, or an
`e`/`E` exponent consuming the whole rest of the string. -/
def parseExpPart : List Char → Option Int
  | [] => some 0
  | c :: r =>
    if c = 'e' || c = 'E' then
      let (es, r2) := parseSign r
      let (ds, r3) := spanDigits r2
      if ds.isEmpty || !r3.isEmpty then none
      else some (es * (digitsToNat ds : Int))
    else none

/-- The result of `strconv.ParseFloat`: a finite value (kept as the exact
rational the input denotes), an infinity, or NaN. -/
inductive GoFloat where
  | finite : ℚ → GoFloat
  | posInf : GoFloat
  | negInf : GoFloat
  | nan : GoFloat
deriving DecidableEq

/-- ASCII lower-casing, as `strconv`'s `lower` does on the bytes it
inspects. -/
def lowerChar (c : Char) : Char :=
  if 'A' ≤ c ∧ c ≤ 'Z' then Char.ofNat (c.toNat + 32) else c

/-- Length of the longest common prefix of `l` with the (lower-case)
pattern, compared case-insensitively. -/
def commonPfxLenCaseless : List Char → List Char → Nat
  | c :: cs, p :: ps => if lowerChar c = p then 1 + commonPfxLenCaseless cs ps else 0
  | _, _ => 0

/-- Model of `strconv`'s `special`: an optional sign followed by a
case-insensitive `inf` or `infinity` (the sign case falls through only to
the infinity check, so `nan` admits no sign), accepted by `ParseFloat` only
when it consumes the whole string. -/
def parseSpecial (l : List Char) : Option GoFloat :=
  let p : Bool × Bool × List Char :=
    match l with
    | '+' :: r => (false, true, r)
    | '-' :: r => (true, true, r)
    | r => (false, false, r)
  let isNeg := p.1
  let hasSign := p.2.1
  let rest := p.2.2
  let n := commonPfxLenCaseless rest ("infinity".data)
  if (n = 3 ∨ n = 8) ∧ rest.length = n then
    some (if isNeg then GoFloat.negInf else GoFloat.posInf)
  else if hasSign = false ∧ commonPfxLenCaseless rest ("nan".data) = 3 ∧ rest.length = 3 then
    some GoFloat.nan
  else none

/-- Scanner state of `strconv`'s `underscoreOK`: start of number, a digit
(or base prefix), an underscore, or anything else. -/
inductive USaw where
  | start : USaw
  | digit : USaw
  | score : USaw
  | other : USaw
deriving DecidableEq

/-- The character loop of `underscoreOK`: an underscore must follow and be
followed by a digit (hex letters count as digits after a `0x` prefix). -/
def underscoreScan (hex : Bool) : List Char → USaw → Bool
  | [], saw => if saw = USaw.score then false else true
  | c :: cs, saw =>
    if c.isDigit || (hex && 'a' ≤ lowerChar c && lowerChar c ≤ 'f') then
      underscoreScan hex cs USaw.digit
    else if c = '_' then
      if saw = USaw.digit then underscoreScan hex cs USaw.score else false
    else if saw = USaw.score then false
    else underscoreScan hex cs USaw.other

/-- Model of `strconv`'s `underscoreOK`: after an optional sign and an
optional `0x` base prefix (which counts as a digit), every underscore must
sit between digits. -/
def underscoreOK (l : List Char) : Bool :=
  let l1 := match l with
    | '+' :: r => r
    | '-' :: r => r
    | r => r
  match l1 with
  | '0' :: x :: r =>
    if lowerChar x = 'x' then underscoreScan true r USaw.digit
    else underscoreScan false l1 USaw.start
  | _ => underscoreScan false l1 USaw.start

/-- Drop the digit-group underscores (for a string `underscoreOK` accepts,
this is exactly what `readFloat`'s scan skips). -/
def stripUnderscores (l : List Char) : List Char := l.filter (fun c => c ≠ '_')

def isHexDigit (c : Char) : Bool :=
  c.isDigit || ('a' ≤ lowerChar c && lowerChar c ≤ 'f')

def hexVal (c : Char) : Nat :=
  if c.isDigit then c.toNat - 48 else (lowerChar c).toNat - 87

/-- Value of a hexadecimal digit list, most significant first. -/
def hexToNat (l : List Char) : Nat := l.foldl (fun a c => a * 16 + hexVal c) 0

/-- Longest leading run of hexadecimal digits and the remainder. -/
def spanHexDigits (l : List Char) : List Char × List Char :=
  (l.takeWhile isHexDigit, l.dropWhile isHexDigit)

/-- Hexadecimal mantissa: hex-digit run with an optional fractional part, or
a bare fractional part.  Returns the combined digits' value, the number of
fractional digits, and the unconsumed remainder. -/
def parseHexMantissa (l : List Char) : Option (Nat × Nat × List Char) :=
  let (ip, r1) := spanHexDigits l
  match r1 with
  | '.' :: r2 =>
    let (fp, r3) := spanHexDigits r2
    if ip.isEmpty && fp.isEmpty then none
    else some (hexToNat (ip ++ fp), fp.length, r3)
  | _ => if ip.isEmpty then none else some (hexToNat ip, 0, r1)

/-- The binary exponent a hexadecimal float requires: `p`/`P`, an optional
sign, and a decimal digit run consuming the rest of the string. -/
def parseHexExpPart : List Char → Option Int
  | [] => none
  | c :: r =>
    if lowerChar c = 'p' then
      let (es, r2) := parseSign r
      let (ds, r3) := spanDigits r2
      if ds.isEmpty || !r3.isEmpty then none
      else some (es * (digitsToNat ds : Int))
    else none

/-- Exact value of an underscore-free decimal form (mantissa and optional
exponent), when the whole list is consumed. -/
def parseDecCore (l : List Char) : Option ℚ :=
  match parseMantissa l with
  | none => none
  | some (num, scale, rest) =>
    match parseExpPart rest with
    | none => none
    | some e =>
      let e' : Int := e - (scale : Int)
      some (if 0 ≤ e' then mkRat ((num : Int) * 10 ^ e'.toNat) 1
            else mkRat (num : Int) (10 ^ (-e').toNat))

/-- Exact value of an underscore-free hexadecimal form after the `0x`
prefix: `mantissa * 2 ^ exponent` with 4 bits per fractional hex digit. -/
def parseHexCore (l : List Char) : Option ℚ :=
  match parseHexMantissa l with
  | none => none
  | some (num, scale, rest) =>
    match parseHexExpPart rest with
    | none => none
    | some e =>
      let e' : Int := e - 4 * (scale : Int)
      some (if 0 ≤ e' then mkRat ((num : Int) * 2 ^ e'.toNat) 1
            else mkRat (num : Int) (2 ^ (-e').toNat))

/-- The accepted inputs of `strconv.ParseFloat(s, 64)` and their values:
the special `inf`/`infinity`/`nan` forms, or — when the underscores are
well-placed — an optionally signed decimal or hexadecimal number (the
underscores dropped exactly where `readFloat`'s scan skips them). -/
def parseFloatCore (l : List Char) : Option GoFloat :=
  match parseSpecial l with
  | some f => some f
  | none =>
    if !underscoreOK l then none
    else
      let (sgn, rest) := parseSign (stripUnderscores l)
      match rest with
      | '0' :: x :: r =>
        if lowerChar x = 'x' then
          (parseHexCore r).map (fun q => GoFloat.finite (if sgn < 0 then -q else q))
        else
          (parseDecCore ('0' :: x :: r)).map (fun q => GoFloat.finite (if sgn < 0 then -q else q))
      | rest2 => (parseDecCore rest2).map (fun q => GoFloat.finite (if sgn < 0 then -q else q))

/-- Whether a string is accepted by `strconv.ParseFloat`. -/
def floatSyntaxOK (s : String) : Bool := (parseFloatCore s.data).isSome

/-- Model of `v, _ := strconv.ParseFloat(s, 64)` with the error discarded by
the caller: a malformed value yields 0. -/
def goParseFloat (s : String) : GoFloat :=
  (parseFloatCore s.data).getD (GoFloat.finite 0)

/-- An exact decimal number `m / 10 ^ e`, the model of the `float64` limit
fields of `RunConfig`. -/
structure Dec where
  m : Int
  e : Nat
deriving DecidableEq

/-- Strip factors of ten from the mantissa into the exponent:
the normalization performed by shortest round-trip formatting. -/
def stripZeros : Int → Nat → Int × Nat
  | m, 0 => (m, 0)
  | m, e + 1 => if m % 10 = 0 then stripZeros (m / 10) e else (m, e + 1)

/-- Left-pad a digit string with zeros to `e` characters. -/
def padFrac (s : String) (e : Nat) : String :=
  String.mk (List.replicate (e - s.length) '0') ++ s

/-- Model of Go `strconv.FormatFloat(x, 'f', -1, 64)` on a decimal value:
the exact decimal rendering with trailing fractional zeros stripped, which
is the shortest output that parses back to the same value. -/
def Dec.format (d : Dec) : String :=
  let p := stripZeros d.m d.e
  if p.2 = 0 then toString p.1
  else
    let a := p.1.natAbs
    let ip := a / 10 ^ p.2
    let fp := a % 10 ^ p.2
    (if p.1 < 0 then "-" else "") ++ toString ip ++ "." ++ padFrac (toString fp) p.2

/-- The rational value denoted by a `Dec`. -/
def Dec.toRat (d : Dec) : ℚ := mkRat d.m (10 ^ d.e)

/-! ## Data model (`sandbox.go`: `Directory`, `RunConfig`, `RunStats`) -/

/-- A directory rule (`sandbox.go` type `Directory`). -/
structure Directory where
  In : String
  Out : String
  Opts : String
  Removes : Bool
  Verbatim : Bool
deriving DecidableEq

/-- A run request (`sandbox.go` type `RunConfig`).  The Go field
`EnvToSet map[string]string` is modelled as its entry list; the iteration
order Go uses to range over the map is passed to `buildRunFlags` separately,
because Go map iteration order is unspecified. -/
structure RunConfig where
  StderrToStdout : Bool
  InputPath : String
  OutputPath : String
  StderrPath : String
  MemoryLimit : Int
  TimeLimit : Dec
  WallTimeLimit : Dec
  InheritEnv : Bool
  EnvToInherit : List String
  EnvToSet : List (String × String)
  Directories : List Directory
deriving DecidableEq

/-- The decoded execution report (`sandbox.go` type `RunStats`). -/
structure RunStats where
  Memory : Int
  ExitCode : Int
  ExitSignal : Int
  Killed : Bool
  Message : String
  Status : String
  Time : GoFloat
  InternalMessage : String
deriving DecidableEq

/-! ## Invocation flag builder (`sandbox.go` lines 39-112) -/

/-- The flag one directory rule contributes (`sandbox.go` lines 43-61). -/
def dirFlag (dir : Directory) : String :=
  if dir.Removes then "--dir=" ++ dir.In ++ "="
  else
    let toAdd := "--dir=" ++ dir.In
    let toAdd :=
      if dir.Out = "" then (if !dir.Verbatim then toAdd ++ "=" ++ dir.In else toAdd)
      else toAdd ++ "=" ++ dir.Out
    if dir.Opts ≠ "" then toAdd ++ ":" ++ dir.Opts else toAdd

/-- The options suffix an add rule carries. -/
def optsSuffix (dir : Directory) : String :=
  if dir.Opts ≠ "" then ":" ++ dir.Opts else ""

/-- Effective stdin path: lines 87-89 default an empty `InputPath` to the
null device, mutating the configuration. -/
def effIn (c : RunConfig) : String :=
  if c.InputPath = "" then "/dev/null" else c.InputPath

/-- Effective stdout path (lines 90-92). -/
def effOut (c : RunConfig) : String :=
  if c.OutputPath = "" then "/dev/null" else c.OutputPath

/-- Effective stderr path: lines 96-103 default it only when stderr is not
merged into stdout. -/
def effErr (c : RunConfig) : String :=
  if c.StderrToStdout = false ∧ c.StderrPath = "" then "/dev/null" else c.StderrPath

/-- The report-file flag (`sandbox.go` lines 105-107). -/
def metaFlags : Option String → List String
  | some n => ["--meta=" ++ n]
  | none => []

/-- Model of `(*IsolateBox).buildRunFlags` (`sandbox.go` lines 39-112).
Returns the flag list together with the configuration as mutated by the
stdio default substitutions.  `envOrder` is the order in which Go's `range`
happens to enumerate the `EnvToSet` map on this invocation. -/
def buildRunFlags (boxID : Int) (c : RunConfig) (envOrder : List (String × String))
    (metaFile : Option String) : List String × RunConfig :=
  let res := ["--box-id=" ++ toString boxID]
  let res := res ++ ["--cg", "--processes"]
  let res := res ++ c.Directories.map dirFlag
  let res := res ++ (if c.InheritEnv then ["--full-env"] else [])
  let res := res ++ c.EnvToInherit.map (fun env => "--env=" ++ env)
  let res := res ++ envOrder.map (fun kv => "--env=" ++ kv.1 ++ "=" ++ kv.2)
  let res := res ++ (if c.TimeLimit.m ≠ 0 then ["--time=" ++ Dec.format c.TimeLimit] else [])
  let res := res ++
    (if c.WallTimeLimit.m ≠ 0 then ["--wall-time=" ++ Dec.format c.WallTimeLimit] else [])
  let res := res ++ (if c.MemoryLimit ≠ 0 then ["--cg-mem=" ++ toString c.MemoryLimit] else [])
  let res := res ++ ["--stdin=" ++ effIn c, "--stdout=" ++ effOut c]
  let res := res ++ (if c.StderrToStdout then ["--stderr-to-stdout"] else ["--stderr=" ++ effErr c])
  let res := res ++ metaFlags metaFile
  let res := res ++ ["--silent", "--run", "--"]
  (res, { c with InputPath := effIn c, OutputPath := effOut c, StderrPath := effErr c })

/-! ## Resource report decoder (`sandbox.go` lines 254-297) -/

/-- The fresh `RunStats` the decoder starts from: Go zero values, with
`InternalMessage` set to the primitive's captured combined output (line 261). -/
def emptyStats (isolateOut : String) : RunStats :=
  { Memory := 0, ExitCode := 0, ExitSignal := 0, Killed := false,
    Message := "", Status := "", Time := GoFloat.finite 0, InternalMessage := isolateOut }

/-- One iteration of the decoder's scan loop (`sandbox.go` lines 265-294):
cut the line at the first `:`; a line without the separator is skipped; the
recognized keys update one field each; the known-ignored keys (`time-wall`,
`max-rss`, `csw-voluntary`, `csw-forced`, `cg-enabled`, `cg-oom-killed`) and
any unknown key leave the report unchanged. -/
def parseLine (file : RunStats) (line : String) : RunStats :=
  match goCut line with
  | none => file
  | some (key, val) =>
    if key = "cg-mem" then { file with Memory := goAtoi val }
    else if key = "exitcode" then { file with ExitCode := goAtoi val }
    else if key = "exitsig" then { file with ExitSignal := goAtoi val }
    else if key = "killed" then { file with Killed := true }
    else if key = "message" then { file with Message := val }
    else if key = "status" then { file with Status := val }
    else if key = "time" then { file with Time := goParseFloat val }
    else file

/-- Model of `parseMetaFile` (`sandbox.go` lines 254-297) on a non-nil
reader, with the report file presented as its list of lines. -/
def parseMetaFile (lines : List String) (isolateOut : String) : RunStats :=
  lines.foldl parseLine (emptyStats isolateOut)

/-! ## Command runner (`sandbox.go` lines 165-209) -/

/-- What the environment does on one iteration of the retry loop:
the temporary report file fails to be created (`continue` without sleeping),
the primitive fails to spawn (`runCommand` returns a nil report and an
error), or `runCommand` succeeds and yields the decoded report. -/
inductive AttemptOutcome where
  | tempFail : AttemptOutcome
  | runFail : AttemptOutcome
  | runOk : Option RunStats → AttemptOutcome
deriving DecidableEq

/-- The observable result of `RunCommand`: the returned report and error,
the number of loop iterations consumed and the number of fixed-interval
backoff sleeps performed. -/
structure LoopResult where
  report : Option RunStats
  error : Option Unit
  attemptsUsed : Nat
  sleeps : Nat
deriving DecidableEq

/-- `runErrRetries` (`sandbox.go` line 24). -/
def runErrRetries : Nat := 3

/-- `runErrTimeout` in milliseconds (`sandbox.go` line 25): the fixed
backoff interval. -/
def runErrTimeoutMs : Nat := 200

/-- The retry loop of `RunCommand` (`sandbox.go` lines 182-208), one list
element per loop iteration the environment provides.  `last` is the current
value of the `meta` variable, `used` and `sleeps` count iterations and
backoff sleeps.  An accepted attempt returns its report and the (nil) error;
an attempt whose report has exit code 127 and an `execve` diagnostic in the
primitive's output sleeps and retries instead; every other rejected attempt
sleeps and retries; exhaustion returns the last report with a nil error. -/
def runLoop : List AttemptOutcome → Option RunStats → Nat → Nat → LoopResult
  | [], last, used, sleeps => ⟨last, none, used, sleeps⟩
  | AttemptOutcome.tempFail :: rest, last, used, sleeps => runLoop rest last (used + 1) sleeps
  | AttemptOutcome.runFail :: rest, _, used, sleeps => runLoop rest none (used + 1) (sleeps + 1)
  | AttemptOutcome.runOk none :: rest, _, used, sleeps => runLoop rest none (used + 1) (sleeps + 1)
  | AttemptOutcome.runOk (some m) :: rest, _, used, sleeps =>
    if m.Status ≠ "XX" then
      if m.ExitCode = 127 ∧ strContains m.InternalMessage "execve" = true then
        runLoop rest (some m) (used + 1) (sleeps + 1)
      else ⟨some m, none, used + 1, sleeps⟩
    else runLoop rest (some m) (used + 1) (sleeps + 1)

/-- Model of `(*IsolateBox).RunCommand` (`sandbox.go` lines 165-209).
The prologue reads `command[0]` (line 171) without a length guard — Go
panics on the empty slice, modelled as `none`; otherwise the retry loop
runs on the environment-provided attempt outcomes. -/
def RunCommand (command : List String) (attempts : List AttemptOutcome) : Option LoopResult :=
  match command with
  | [] => none
  | _ :: _ => some (runLoop attempts none 0 0)

/-- An attempt outcome the loop rejects (no accepted report): a spawn
error, a nil report, or a report with the infrastructure-error status. -/
def rejectedAttempt : AttemptOutcome → Bool
  | AttemptOutcome.tempFail => false
  | AttemptOutcome.runFail => true
  | AttemptOutcome.runOk none => true
  | AttemptOutcome.runOk (some m) => m.Status = "XX"

/-- The value the `meta` variable holds after a rejected attempt. -/
def attemptReport : AttemptOutcome → Option RunStats
  | AttemptOutcome.tempFail => none
  | AttemptOutcome.runFail => none
  | AttemptOutcome.runOk m => m

/-! ## `MakeGoodCommand` (`util.go` lines 15-34) -/

/-- Model of `MakeGoodCommand`.  `lookPath` and `evalSymlinks` are the
environment's `exec.LookPath` and `filepath.EvalSymlinks`.  The function
clones the slice and reads `tmp[0]` unguarded (line 18) — Go panics on an
empty slice, modelled as `none`. -/
def MakeGoodCommand (lookPath evalSymlinks : String → Except String String) :
    List String → Option (Except String (List String))
  | [] => none
  | c :: rest =>
    if strHasPfx c "/box" then some (Except.ok (c :: rest))
    else
      match lookPath c with
      | Except.error e => some (Except.error e)
      | Except.ok cmd =>
        match evalSymlinks cmd with
        | Except.error e => some (Except.error e)
        | Except.ok cmd2 => some (Except.ok (cmd2 :: rest))

/-! ## Box lifecycle (`sandbox.go` lines 211-243) -/

/-- The observable outcome of one `--init` invocation of the primitive:
its combined output, whether the invocation returned a non-nil error, and
whether the `os.Chown` attempted in the must-be-root branch fails. -/
structure InitOutcome where
  ret : String
  errNonNil : Bool
  chownErr : Bool
deriving DecidableEq

/-- The box handle (`sandbox.go` type `IsolateBox`, mutex omitted). -/
structure IsolateBox where
  path : String
  boxID : Int
deriving DecidableEq

/-- Model of `New` (`sandbox.go` lines 212-243).  Each recursive
self-healing retry consumes the next `InitOutcome`; `none` models the
unbounded recursion running out of provided outcomes.  On success the box
root is the whole combined output passed through `strings.TrimSpace`. -/
def New (id : Int) : List InitOutcome → Option (Except Unit IsolateBox)
  | [] => none
  | o :: rest =>
    if strHasPfx o.ret "Box already exists" then New id rest
    else if strContains o.ret "incompatible control group mode" then New id rest
    else if strHasPfx o.ret "Must be started as root" then
      if o.chownErr then some (Except.error ()) else New id rest
    else if o.errNonNil then some (Except.error ())
    else some (Except.ok ⟨goTrimSpace o.ret, id⟩)

/-- Modelled from the spec: "the primitive prints the cell's root filesystem
path on its last line".  The last line of the init output, after discarding
surrounding white space.  This definition follows the spec's words, for
comparison against what `New` actually computes. -/
def specLastLine (s : String) : String :=
  String.mk ((splitNl (goTrimSpace s).data).getLastD [])

/-! ## Concrete fixtures used by witnesses and counterexamples -/

/-- A minimal run configuration. -/
def baseConf : RunConfig :=
  { StderrToStdout := false, InputPath := "", OutputPath := "", StderrPath := "",
    MemoryLimit := 0, TimeLimit := ⟨0, 0⟩, WallTimeLimit := ⟨0, 0⟩,
    InheritEnv := false, EnvToInherit := [], EnvToSet := [], Directories := [] }

/-- A configuration with two explicit environment entries. -/
def c3Conf : RunConfig := { baseConf with EnvToSet := [("A", "1"), ("B", "2")] }

/-- A configuration with a 1.5-second CPU limit and a 65536 KiB memory limit. -/
def c6Conf : RunConfig := { baseConf with TimeLimit := ⟨15, 1⟩, MemoryLimit := 65536 }

/-- A report for a program that could not be executed at all: exit code 127
with an `execve` diagnostic in the primitive's captured output. -/
def execveStats : RunStats :=
  { Memory := 0, ExitCode := 127, ExitSignal := 0, Killed := false, Message := "",
    Status := "RE", Time := GoFloat.finite 0, InternalMessage := "execve: text file busy" }

/-! ## String facts for the flag-list theorems -/

lemma stringDataEq {s t : String} (h : s.data = t.data) : s = t := by
  cases s; cases t; cases h; rfl

/-- Two flag strings with incomparable literal heads differ: if `a` is not a
prefix of `b` (witnessed by taking `a.data.length` characters of `b`), and
`a` is at most as long as `b`, then `a ++ s` never equals `b ++ t`. -/
lemma flagNePre (a b : String) (hlen : a.data.length ≤ b.data.length)
    (hne : b.data.take a.data.length ≠ a.data) (s t : String) : a ++ s ≠ b ++ t := by
  intro he
  apply hne
  have hd : a.data ++ s.data = b.data ++ t.data := by
    have h2 := congrArg String.data he
    simpa [String.data_append] using h2
  calc b.data.take a.data.length
      = (b.data ++ t.data).take a.data.length := (List.take_append_of_le_length hlen).symm
    _ = (a.data ++ s.data).take a.data.length := by rw [hd]
    _ = a.data := List.take_left a.data s.data

/-- A flag of the family `a ++ _` never equals a bare literal `b` that does
not have `a` as a prefix. -/
lemma flagNeBare (a b : String) (hne : b.data.take a.data.length ≠ a.data)
    (s : String) : a ++ s ≠ b := by
  intro he
  apply hne
  have hd : a.data ++ s.data = b.data := by
    have h2 := congrArg String.data he
    simpa [String.data_append] using h2
  rw [← hd]
  exact List.take_left a.data s.data

lemma appendLeftCancel {a s t : String} (h : a ++ s = a ++ t) : s = t := by
  apply stringDataEq
  have hd := congrArg String.data h
  simp only [String.data_append] at hd
  exact List.append_cancel_left hd

lemma memIfSingleton {P : Prop} [Decidable P] {x y : String} :
    x ∈ (if P then [y] else []) ↔ P ∧ x = y := by
  split <;> simp_all

lemma memIfSingletonPair {P : Prop} [Decidable P] {x y z : String} :
    x ∈ (if P then [y] else [z]) ↔ (P ∧ x = y) ∨ (¬P ∧ x = z) := by
  split <;> simp_all

lemma memMetaFlags {x : String} {mf : Option String} :
    x ∈ metaFlags mf ↔ ∃ n, mf = some n ∧ x = "--meta=" ++ n := by
  cases mf <;> simp [metaFlags, eq_comm]

/-- Every directory rule's flag starts with the directory-flag head. -/
lemma dirFlagShape (d : Directory) : ∃ t, dirFlag d = "--dir=" ++ t := by
  simp only [dirFlag]
  split_ifs <;> (try simp only [String.append_assoc]) <;> exact ⟨_, rfl⟩

/-- The built flag list, written as the concatenation of its stages. -/
lemma buildRunFlagsEq (b : Int) (c : RunConfig) (ord : List (String × String))
    (mf : Option String) :
    (buildRunFlags b c ord mf).1 =
      ["--box-id=" ++ toString b] ++ ["--cg", "--processes"] ++ c.Directories.map dirFlag
      ++ (if c.InheritEnv then ["--full-env"] else [])
      ++ c.EnvToInherit.map (fun env => "--env=" ++ env)
      ++ ord.map (fun kv => "--env=" ++ kv.1 ++ "=" ++ kv.2)
      ++ (if c.TimeLimit.m ≠ 0 then ["--time=" ++ Dec.format c.TimeLimit] else [])
      ++ (if c.WallTimeLimit.m ≠ 0 then ["--wall-time=" ++ Dec.format c.WallTimeLimit] else [])
      ++ (if c.MemoryLimit ≠ 0 then ["--cg-mem=" ++ toString c.MemoryLimit] else [])
      ++ ["--stdin=" ++ effIn c, "--stdout=" ++ effOut c]
      ++ (if c.StderrToStdout then ["--stderr-to-stdout"] else ["--stderr=" ++ effErr c])
      ++ metaFlags mf ++ ["--silent", "--run", "--"] := rfl

/-- The mutated configuration returned alongside the flags. -/
lemma buildRunFlagsConf (b : Int) (c : RunConfig) (ord : List (String × String))
    (mf : Option String) :
    (buildRunFlags b c ord mf).2 =
      { c with InputPath := effIn c, OutputPath := effOut c, StderrPath := effErr c } := rfl

/-- Exhaustive description of the elements of a built flag list. -/
lemma memBuildRunFlags {x : String} {b : Int} {c : RunConfig}
    {ord : List (String × String)} {mf : Option String}
    (h : x ∈ (buildRunFlags b c ord mf).1) :
    x = "--box-id=" ++ toString b ∨
    (x = "--cg" ∨ x = "--processes") ∨
    (∃ d ∈ c.Directories, dirFlag d = x) ∨
    c.InheritEnv = true ∧ x = "--full-env" ∨
    (∃ e ∈ c.EnvToInherit, "--env=" ++ e = x) ∨
    (∃ kv ∈ ord, "--env=" ++ (kv.1 ++ ("=" ++ kv.2)) = x) ∨
    c.TimeLimit.m ≠ 0 ∧ x = "--time=" ++ Dec.format c.TimeLimit ∨
    c.WallTimeLimit.m ≠ 0 ∧ x = "--wall-time=" ++ Dec.format c.WallTimeLimit ∨
    c.MemoryLimit ≠ 0 ∧ x = "--cg-mem=" ++ toString c.MemoryLimit ∨
    (x = "--stdin=" ++ effIn c ∨ x = "--stdout=" ++ effOut c) ∨
    (c.StderrToStdout = true ∧ x = "--stderr-to-stdout" ∨
      c.StderrToStdout = false ∧ x = "--stderr=" ++ effErr c) ∨
    (∃ n, mf = some n ∧ x = "--meta=" ++ n) ∨ x = "--silent" ∨ x = "--run" ∨ x = "--" := by
  rw [buildRunFlagsEq] at h
  simp only [List.append_assoc, List.mem_append, List.mem_cons, List.mem_singleton,
    List.mem_map, List.not_mem_nil, memIfSingleton, memIfSingletonPair,
    memMetaFlags, Bool.not_eq_true, false_or, or_false, String.append_assoc] at h
  exact h

/-- The stdin flag is unique: any stdin flag in the list carries the
effective (defaulted) input path. -/
lemma stdinUnique {b : Int} {c : RunConfig} {ord : List (String × String)}
    {mf : Option String} {s : String}
    (h : "--stdin=" ++ s ∈ (buildRunFlags b c ord mf).1) : s = effIn c := by
  rcases memBuildRunFlags h with h | (h | h) | ⟨d, hd, h⟩ | ⟨hP, h⟩ | ⟨e, he, h⟩ | ⟨kv, hkv, h⟩ | ⟨hm, h⟩ | ⟨hm, h⟩ | ⟨hm, h⟩ | (h | h) | (⟨hb, h⟩ | ⟨hb, h⟩) | ⟨n, hn, h⟩ | h | h | h
  · exact absurd h (flagNePre "--stdin=" "--box-id=" (by decide) (by decide) _ _)
  · exact absurd h (flagNeBare "--stdin=" "--cg" (by decide) _)
  · exact absurd h (flagNeBare "--stdin=" "--processes" (by decide) _)
  · obtain ⟨t, ht⟩ := dirFlagShape d
    rw [ht] at h
    exact absurd h (flagNePre "--dir=" "--stdin=" (by decide) (by decide) _ _)
  · exact absurd h (flagNeBare "--stdin=" "--full-env" (by decide) _)
  · exact absurd h (flagNePre "--env=" "--stdin=" (by decide) (by decide) _ _)
  · exact absurd h (flagNePre "--env=" "--stdin=" (by decide) (by decide) _ _)
  · exact absurd h.symm (flagNePre "--time=" "--stdin=" (by decide) (by decide) _ _)
  · exact absurd h (flagNePre "--stdin=" "--wall-time=" (by decide) (by decide) _ _)
  · exact absurd h (flagNePre "--stdin=" "--cg-mem=" (by decide) (by decide) _ _)
  · exact appendLeftCancel h
  · exact absurd h (flagNePre "--stdin=" "--stdout=" (by decide) (by decide) _ _)
  · exact absurd h (flagNeBare "--stdin=" "--stderr-to-stdout" (by decide) _)
  · exact absurd h (flagNePre "--stdin=" "--stderr=" (by decide) (by decide) _ _)
  · exact absurd h.symm (flagNePre "--meta=" "--stdin=" (by decide) (by decide) _ _)
  · exact absurd h (flagNeBare "--stdin=" "--silent" (by decide) _)
  · exact absurd h (flagNeBare "--stdin=" "--run" (by decide) _)
  · exact absurd h (flagNeBare "--stdin=" "--" (by decide) _)

/-- The stdout flag is unique: any stdout flag in the list carries the
effective (defaulted) output path. -/
lemma stdoutUnique {b : Int} {c : RunConfig} {ord : List (String × String)}
    {mf : Option String} {s : String}
    (h : "--stdout=" ++ s ∈ (buildRunFlags b c ord mf).1) : s = effOut c := by
  rcases memBuildRunFlags h with h | (h | h) | ⟨d, hd, h⟩ | ⟨hP, h⟩ | ⟨e, he, h⟩ | ⟨kv, hkv, h⟩ | ⟨hm, h⟩ | ⟨hm, h⟩ | ⟨hm, h⟩ | (h | h) | (⟨hb, h⟩ | ⟨hb, h⟩) | ⟨n, hn, h⟩ | h | h | h
  · exact absurd h (flagNePre "--stdout=" "--box-id=" (by decide) (by decide) _ _)
  · exact absurd h (flagNeBare "--stdout=" "--cg" (by decide) _)
  · exact absurd h (flagNeBare "--stdout=" "--processes" (by decide) _)
  · obtain ⟨t, ht⟩ := dirFlagShape d
    rw [ht] at h
    exact absurd h (flagNePre "--dir=" "--stdout=" (by decide) (by decide) _ _)
  · exact absurd h (flagNeBare "--stdout=" "--full-env" (by decide) _)
  · exact absurd h (flagNePre "--env=" "--stdout=" (by decide) (by decide) _ _)
  · exact absurd h (flagNePre "--env=" "--stdout=" (by decide) (by decide) _ _)
  · exact absurd h.symm (flagNePre "--time=" "--stdout=" (by decide) (by decide) _ _)
  · exact absurd h (flagNePre "--stdout=" "--wall-time=" (by decide) (by decide) _ _)
  · exact absurd h (flagNePre "--stdout=" "--cg-mem=" (by decide) (by decide) _ _)
  · exact absurd h.symm (flagNePre "--stdin=" "--stdout=" (by decide) (by decide) _ _)
  · exact appendLeftCancel h
  · exact absurd h (flagNeBare "--stdout=" "--stderr-to-stdout" (by decide) _)
  · exact absurd h (flagNePre "--stdout=" "--stderr=" (by decide) (by decide) _ _)
  · exact absurd h.symm (flagNePre "--meta=" "--stdout=" (by decide) (by decide) _ _)
  · exact absurd h (flagNeBare "--stdout=" "--silent" (by decide) _)
  · exact absurd h (flagNeBare "--stdout=" "--run" (by decide) _)
  · exact absurd h (flagNeBare "--stdout=" "--" (by decide) _)

/-- Any stderr-path flag in the list carries the effective (defaulted)
stderr path. -/
lemma stderrUnique {b : Int} {c : RunConfig} {ord : List (String × String)}
    {mf : Option String} {s : String}
    (h : "--stderr=" ++ s ∈ (buildRunFlags b c ord mf).1) : s = effErr c := by
  rcases memBuildRunFlags h with h | (h | h) | ⟨d, hd, h⟩ | ⟨hP, h⟩ | ⟨e, he, h⟩ | ⟨kv, hkv, h⟩ | ⟨hm, h⟩ | ⟨hm, h⟩ | ⟨hm, h⟩ | (h | h) | (⟨hb, h⟩ | ⟨hb, h⟩) | ⟨n, hn, h⟩ | h | h | h
  · exact absurd h (flagNePre "--stderr=" "--box-id=" (by decide) (by decide) _ _)
  · exact absurd h (flagNeBare "--stderr=" "--cg" (by decide) _)
  · exact absurd h (flagNeBare "--stderr=" "--processes" (by decide) _)
  · obtain ⟨t, ht⟩ := dirFlagShape d
    rw [ht] at h
    exact absurd h (flagNePre "--dir=" "--stderr=" (by decide) (by decide) _ _)
  · exact absurd h (flagNeBare "--stderr=" "--full-env" (by decide) _)
  · exact absurd h (flagNePre "--env=" "--stderr=" (by decide) (by decide) _ _)
  · exact absurd h (flagNePre "--env=" "--stderr=" (by decide) (by decide) _ _)
  · exact absurd h.symm (flagNePre "--time=" "--stderr=" (by decide) (by decide) _ _)
  · exact absurd h (flagNePre "--stderr=" "--wall-time=" (by decide) (by decide) _ _)
  · exact absurd h (flagNePre "--stderr=" "--cg-mem=" (by decide) (by decide) _ _)
  · exact absurd h.symm (flagNePre "--stdin=" "--stderr=" (by decide) (by decide) _ _)
  · exact absurd h (flagNePre "--stderr=" "--stdout=" (by decide) (by decide) _ _)
  · exact absurd h (flagNeBare "--stderr=" "--stderr-to-stdout" (by decide) _)
  · exact appendLeftCancel h
  · exact absurd h.symm (flagNePre "--meta=" "--stderr=" (by decide) (by decide) _ _)
  · exact absurd h (flagNeBare "--stderr=" "--silent" (by decide) _)
  · exact absurd h (flagNeBare "--stderr=" "--run" (by decide) _)
  · exact absurd h (flagNeBare "--stderr=" "--" (by decide) _)

/-- When stderr is merged into stdout no stderr-path flag is emitted. -/
lemma stderrNotMem {b : Int} {c : RunConfig} {ord : List (String × String)}
    {mf : Option String} (hmerge : c.StderrToStdout = true) (s : String) :
    "--stderr=" ++ s ∉ (buildRunFlags b c ord mf).1 := by
  intro h
  rcases memBuildRunFlags h with h | (h | h) | ⟨d, hd, h⟩ | ⟨hP, h⟩ | ⟨e, he, h⟩ | ⟨kv, hkv, h⟩ | ⟨hm, h⟩ | ⟨hm, h⟩ | ⟨hm, h⟩ | (h | h) | (⟨hb, h⟩ | ⟨hb, h⟩) | ⟨n, hn, h⟩ | h | h | h
  · exact absurd h (flagNePre "--stderr=" "--box-id=" (by decide) (by decide) _ _)
  · exact absurd h (flagNeBare "--stderr=" "--cg" (by decide) _)
  · exact absurd h (flagNeBare "--stderr=" "--processes" (by decide) _)
  · obtain ⟨t, ht⟩ := dirFlagShape d
    rw [ht] at h
    exact absurd h (flagNePre "--dir=" "--stderr=" (by decide) (by decide) _ _)
  · exact absurd h (flagNeBare "--stderr=" "--full-env" (by decide) _)
  · exact absurd h (flagNePre "--env=" "--stderr=" (by decide) (by decide) _ _)
  · exact absurd h (flagNePre "--env=" "--stderr=" (by decide) (by decide) _ _)
  · exact absurd h.symm (flagNePre "--time=" "--stderr=" (by decide) (by decide) _ _)
  · exact absurd h (flagNePre "--stderr=" "--wall-time=" (by decide) (by decide) _ _)
  · exact absurd h (flagNePre "--stderr=" "--cg-mem=" (by decide) (by decide) _ _)
  · exact absurd h.symm (flagNePre "--stdin=" "--stderr=" (by decide) (by decide) _ _)
  · exact absurd h (flagNePre "--stderr=" "--stdout=" (by decide) (by decide) _ _)
  · exact absurd h (flagNeBare "--stderr=" "--stderr-to-stdout" (by decide) _)
  · rw [hmerge] at hb
    cases hb
  · exact absurd h.symm (flagNePre "--meta=" "--stderr=" (by decide) (by decide) _ _)
  · exact absurd h (flagNeBare "--stderr=" "--silent" (by decide) _)
  · exact absurd h (flagNeBare "--stderr=" "--run" (by decide) _)
  · exact absurd h (flagNeBare "--stderr=" "--" (by decide) _)

/-- A zero CPU-time limit emits no time flag at all. -/
lemma timeNotMem {b : Int} {c : RunConfig} {ord : List (String × String)}
    {mf : Option String} (h0 : c.TimeLimit.m = 0) (s : String) :
    "--time=" ++ s ∉ (buildRunFlags b c ord mf).1 := by
  intro h
  rcases memBuildRunFlags h with h | (h | h) | ⟨d, hd, h⟩ | ⟨hP, h⟩ | ⟨e, he, h⟩ | ⟨kv, hkv, h⟩ | ⟨hm, h⟩ | ⟨hm, h⟩ | ⟨hm, h⟩ | (h | h) | (⟨hb, h⟩ | ⟨hb, h⟩) | ⟨n, hn, h⟩ | h | h | h
  · exact absurd h (flagNePre "--time=" "--box-id=" (by decide) (by decide) _ _)
  · exact absurd h (flagNeBare "--time=" "--cg" (by decide) _)
  · exact absurd h (flagNeBare "--time=" "--processes" (by decide) _)
  · obtain ⟨t, ht⟩ := dirFlagShape d
    rw [ht] at h
    exact absurd h (flagNePre "--dir=" "--time=" (by decide) (by decide) _ _)
  · exact absurd h (flagNeBare "--time=" "--full-env" (by decide) _)
  · exact absurd h (flagNePre "--env=" "--time=" (by decide) (by decide) _ _)
  · exact absurd h (flagNePre "--env=" "--time=" (by decide) (by decide) _ _)
  · exact hm h0
  · exact absurd h (flagNePre "--time=" "--wall-time=" (by decide) (by decide) _ _)
  · exact absurd h (flagNePre "--time=" "--cg-mem=" (by decide) (by decide) _ _)
  · exact absurd h (flagNePre "--time=" "--stdin=" (by decide) (by decide) _ _)
  · exact absurd h (flagNePre "--time=" "--stdout=" (by decide) (by decide) _ _)
  · exact absurd h (flagNeBare "--time=" "--stderr-to-stdout" (by decide) _)
  · exact absurd h (flagNePre "--time=" "--stderr=" (by decide) (by decide) _ _)
  · exact absurd h (flagNePre "--time=" "--meta=" (by decide) (by decide) _ _)
  · exact absurd h (flagNeBare "--time=" "--silent" (by decide) _)
  · exact absurd h (flagNeBare "--time=" "--run" (by decide) _)
  · exact absurd h (flagNeBare "--time=" "--" (by decide) _)

/-- Any time flag in the list carries the shortest-form rendering of the
CPU-time limit. -/
lemma timeUnique {b : Int} {c : RunConfig} {ord : List (String × String)}
    {mf : Option String} {s : String}
    (h : "--time=" ++ s ∈ (buildRunFlags b c ord mf).1) : s = Dec.format c.TimeLimit := by
  rcases memBuildRunFlags h with h | (h | h) | ⟨d, hd, h⟩ | ⟨hP, h⟩ | ⟨e, he, h⟩ | ⟨kv, hkv, h⟩ | ⟨hm, h⟩ | ⟨hm, h⟩ | ⟨hm, h⟩ | (h | h) | (⟨hb, h⟩ | ⟨hb, h⟩) | ⟨n, hn, h⟩ | h | h | h
  · exact absurd h (flagNePre "--time=" "--box-id=" (by decide) (by decide) _ _)
  · exact absurd h (flagNeBare "--time=" "--cg" (by decide) _)
  · exact absurd h (flagNeBare "--time=" "--processes" (by decide) _)
  · obtain ⟨t, ht⟩ := dirFlagShape d
    rw [ht] at h
    exact absurd h (flagNePre "--dir=" "--time=" (by decide) (by decide) _ _)
  · exact absurd h (flagNeBare "--time=" "--full-env" (by decide) _)
  · exact absurd h (flagNePre "--env=" "--time=" (by decide) (by decide) _ _)
  · exact absurd h (flagNePre "--env=" "--time=" (by decide) (by decide) _ _)
  · exact appendLeftCancel h
  · exact absurd h (flagNePre "--time=" "--wall-time=" (by decide) (by decide) _ _)
  · exact absurd h (flagNePre "--time=" "--cg-mem=" (by decide) (by decide) _ _)
  · exact absurd h (flagNePre "--time=" "--stdin=" (by decide) (by decide) _ _)
  · exact absurd h (flagNePre "--time=" "--stdout=" (by decide) (by decide) _ _)
  · exact absurd h (flagNeBare "--time=" "--stderr-to-stdout" (by decide) _)
  · exact absurd h (flagNePre "--time=" "--stderr=" (by decide) (by decide) _ _)
  · exact absurd h (flagNePre "--time=" "--meta=" (by decide) (by decide) _ _)
  · exact absurd h (flagNeBare "--time=" "--silent" (by decide) _)
  · exact absurd h (flagNeBare "--time=" "--run" (by decide) _)
  · exact absurd h (flagNeBare "--time=" "--" (by decide) _)

/-- A zero wall-time limit emits no wall-time flag at all. -/
lemma wallNotMem {b : Int} {c : RunConfig} {ord : List (String × String)}
    {mf : Option String} (h0 : c.WallTimeLimit.m = 0) (s : String) :
    "--wall-time=" ++ s ∉ (buildRunFlags b c ord mf).1 := by
  intro h
  rcases memBuildRunFlags h with h | (h | h) | ⟨d, hd, h⟩ | ⟨hP, h⟩ | ⟨e, he, h⟩ | ⟨kv, hkv, h⟩ | ⟨hm, h⟩ | ⟨hm, h⟩ | ⟨hm, h⟩ | (h | h) | (⟨hb, h⟩ | ⟨hb, h⟩) | ⟨n, hn, h⟩ | h | h | h
  · exact absurd h.symm (flagNePre "--box-id=" "--wall-time=" (by decide) (by decide) _ _)
  · exact absurd h (flagNeBare "--wall-time=" "--cg" (by decide) _)
  · exact absurd h (flagNeBare "--wall-time=" "--processes" (by decide) _)
  · obtain ⟨t, ht⟩ := dirFlagShape d
    rw [ht] at h
    exact absurd h (flagNePre "--dir=" "--wall-time=" (by decide) (by decide) _ _)
  · exact absurd h (flagNeBare "--wall-time=" "--full-env" (by decide) _)
  · exact absurd h (flagNePre "--env=" "--wall-time=" (by decide) (by decide) _ _)
  · exact absurd h (flagNePre "--env=" "--wall-time=" (by decide) (by decide) _ _)
  · exact absurd h.symm (flagNePre "--time=" "--wall-time=" (by decide) (by decide) _ _)
  · exact hm h0
  · exact absurd h.symm (flagNePre "--cg-mem=" "--wall-time=" (by decide) (by decide) _ _)
  · exact absurd h.symm (flagNePre "--stdin=" "--wall-time=" (by decide) (by decide) _ _)
  · exact absurd h.symm (flagNePre "--stdout=" "--wall-time=" (by decide) (by decide) _ _)
  · exact absurd h (flagNeBare "--wall-time=" "--stderr-to-stdout" (by decide) _)
  · exact absurd h.symm (flagNePre "--stderr=" "--wall-time=" (by decide) (by decide) _ _)
  · exact absurd h.symm (flagNePre "--meta=" "--wall-time=" (by decide) (by decide) _ _)
  · exact absurd h (flagNeBare "--wall-time=" "--silent" (by decide) _)
  · exact absurd h (flagNeBare "--wall-time=" "--run" (by decide) _)
  · exact absurd h (flagNeBare "--wall-time=" "--" (by decide) _)

/-- A zero memory limit emits no control-group memory flag at all. -/
lemma memNotMem {b : Int} {c : RunConfig} {ord : List (String × String)}
    {mf : Option String} (h0 : c.MemoryLimit = 0) (s : String) :
    "--cg-mem=" ++ s ∉ (buildRunFlags b c ord mf).1 := by
  intro h
  rcases memBuildRunFlags h with h | (h | h) | ⟨d, hd, h⟩ | ⟨hP, h⟩ | ⟨e, he, h⟩ | ⟨kv, hkv, h⟩ | ⟨hm, h⟩ | ⟨hm, h⟩ | ⟨hm, h⟩ | (h | h) | (⟨hb, h⟩ | ⟨hb, h⟩) | ⟨n, hn, h⟩ | h | h | h
  · exact absurd h (flagNePre "--cg-mem=" "--box-id=" (by decide) (by decide) _ _)
  · exact absurd h (flagNeBare "--cg-mem=" "--cg" (by decide) _)
  · exact absurd h (flagNeBare "--cg-mem=" "--processes" (by decide) _)
  · obtain ⟨t, ht⟩ := dirFlagShape d
    rw [ht] at h
    exact absurd h (flagNePre "--dir=" "--cg-mem=" (by decide) (by decide) _ _)
  · exact absurd h (flagNeBare "--cg-mem=" "--full-env" (by decide) _)
  · exact absurd h (flagNePre "--env=" "--cg-mem=" (by decide) (by decide) _ _)
  · exact absurd h (flagNePre "--env=" "--cg-mem=" (by decide) (by decide) _ _)
  · exact absurd h.symm (flagNePre "--time=" "--cg-mem=" (by decide) (by decide) _ _)
  · exact absurd h (flagNePre "--cg-mem=" "--wall-time=" (by decide) (by decide) _ _)
  · exact hm h0
  · exact absurd h.symm (flagNePre "--stdin=" "--cg-mem=" (by decide) (by decide) _ _)
  · exact absurd h (flagNePre "--cg-mem=" "--stdout=" (by decide) (by decide) _ _)
  · exact absurd h (flagNeBare "--cg-mem=" "--stderr-to-stdout" (by decide) _)
  · exact absurd h (flagNePre "--cg-mem=" "--stderr=" (by decide) (by decide) _ _)
  · exact absurd h.symm (flagNePre "--meta=" "--cg-mem=" (by decide) (by decide) _ _)
  · exact absurd h (flagNeBare "--cg-mem=" "--silent" (by decide) _)
  · exact absurd h (flagNeBare "--cg-mem=" "--run" (by decide) _)
  · exact absurd h (flagNeBare "--cg-mem=" "--" (by decide) _)

/-- Any control-group memory flag in the list carries the plain integer
rendering of the memory limit. -/
lemma memUnique {b : Int} {c : RunConfig} {ord : List (String × String)}
    {mf : Option String} {s : String}
    (h : "--cg-mem=" ++ s ∈ (buildRunFlags b c ord mf).1) : s = toString c.MemoryLimit := by
  rcases memBuildRunFlags h with h | (h | h) | ⟨d, hd, h⟩ | ⟨hP, h⟩ | ⟨e, he, h⟩ | ⟨kv, hkv, h⟩ | ⟨hm, h⟩ | ⟨hm, h⟩ | ⟨hm, h⟩ | (h | h) | (⟨hb, h⟩ | ⟨hb, h⟩) | ⟨n, hn, h⟩ | h | h | h
  · exact absurd h (flagNePre "--cg-mem=" "--box-id=" (by decide) (by decide) _ _)
  · exact absurd h (flagNeBare "--cg-mem=" "--cg" (by decide) _)
  · exact absurd h (flagNeBare "--cg-mem=" "--processes" (by decide) _)
  · obtain ⟨t, ht⟩ := dirFlagShape d
    rw [ht] at h
    exact absurd h (flagNePre "--dir=" "--cg-mem=" (by decide) (by decide) _ _)
  · exact absurd h (flagNeBare "--cg-mem=" "--full-env" (by decide) _)
  · exact absurd h (flagNePre "--env=" "--cg-mem=" (by decide) (by decide) _ _)
  · exact absurd h (flagNePre "--env=" "--cg-mem=" (by decide) (by decide) _ _)
  · exact absurd h.symm (flagNePre "--time=" "--cg-mem=" (by decide) (by decide) _ _)
  · exact absurd h (flagNePre "--cg-mem=" "--wall-time=" (by decide) (by decide) _ _)
  · exact appendLeftCancel h
  · exact absurd h.symm (flagNePre "--stdin=" "--cg-mem=" (by decide) (by decide) _ _)
  · exact absurd h (flagNePre "--cg-mem=" "--stdout=" (by decide) (by decide) _ _)
  · exact absurd h (flagNeBare "--cg-mem=" "--stderr-to-stdout" (by decide) _)
  · exact absurd h (flagNePre "--cg-mem=" "--stderr=" (by decide) (by decide) _ _)
  · exact absurd h.symm (flagNePre "--meta=" "--cg-mem=" (by decide) (by decide) _ _)
  · exact absurd h (flagNeBare "--cg-mem=" "--silent" (by decide) _)
  · exact absurd h (flagNeBare "--cg-mem=" "--run" (by decide) _)
  · exact absurd h (flagNeBare "--cg-mem=" "--" (by decide) _)

lemma stdinMem (b : Int) (c : RunConfig) (ord : List (String × String)) (mf : Option String) :
    "--stdin=" ++ effIn c ∈ (buildRunFlags b c ord mf).1 := by
  rw [buildRunFlagsEq]; simp

lemma stdoutMem (b : Int) (c : RunConfig) (ord : List (String × String)) (mf : Option String) :
    "--stdout=" ++ effOut c ∈ (buildRunFlags b c ord mf).1 := by
  rw [buildRunFlagsEq]; simp

lemma stderrMem (b : Int) (c : RunConfig) (ord : List (String × String)) (mf : Option String)
    (h : c.StderrToStdout = false) :
    "--stderr=" ++ effErr c ∈ (buildRunFlags b c ord mf).1 := by
  rw [buildRunFlagsEq]; simp [h]

lemma stderrToStdoutMem (b : Int) (c : RunConfig) (ord : List (String × String))
    (mf : Option String) (h : c.StderrToStdout = true) :
    "--stderr-to-stdout" ∈ (buildRunFlags b c ord mf).1 := by
  rw [buildRunFlagsEq]; simp [h]

lemma timeMem (b : Int) (c : RunConfig) (ord : List (String × String)) (mf : Option String)
    (h : c.TimeLimit.m ≠ 0) :
    "--time=" ++ Dec.format c.TimeLimit ∈ (buildRunFlags b c ord mf).1 := by
  rw [buildRunFlagsEq]; simp [h]

lemma cgMemMem (b : Int) (c : RunConfig) (ord : List (String × String)) (mf : Option String)
    (h : c.MemoryLimit ≠ 0) :
    "--cg-mem=" ++ toString c.MemoryLimit ∈ (buildRunFlags b c ord mf).1 := by
  rw [buildRunFlagsEq]; simp [h]

/-! ## Facts about the retry loop -/

/-- A rejected attempt (spawn error, nil report, or infrastructure-error
status) makes the loop sleep once and move to the next iteration, with the
`meta` variable holding that attempt's report. -/
lemma runLoopRejected {o : AttemptOutcome} (rest : List AttemptOutcome)
    (last : Option RunStats) (u s : Nat) (h : rejectedAttempt o = true) :
    runLoop (o :: rest) last u s = runLoop rest (attemptReport o) (u + 1) (s + 1) := by
  cases o with
  | tempFail => simp [rejectedAttempt] at h
  | runFail => rfl
  | runOk m =>
    cases m with
    | none => rfl
    | some meta =>
      have hs : meta.Status = "XX" := by simpa [rejectedAttempt] using h
      simp [runLoop, hs, attemptReport]

/-- The loop never decreases the sleep counter. -/
lemma runLoopSleepsLe (l : List AttemptOutcome) :
    ∀ (last : Option RunStats) (u s : Nat), s ≤ (runLoop l last u s).sleeps := by
  induction l with
  | nil => intro last u s; exact le_refl _
  | cons o rest ih =>
    intro last u s
    cases o with
    | tempFail => exact ih last (u + 1) s
    | runFail => exact le_trans (Nat.le_succ s) (ih none (u + 1) (s + 1))
    | runOk m =>
      cases m with
      | none => exact le_trans (Nat.le_succ s) (ih none (u + 1) (s + 1))
      | some meta =>
        by_cases h1 : meta.Status ≠ "XX"
        · by_cases h2 : meta.ExitCode = 127 ∧ strContains meta.InternalMessage "execve" = true
          · simpa [runLoop, h1, h2] using
              le_trans (Nat.le_succ s) (ih (some meta) (u + 1) (s + 1))
          · simp [runLoop, h1, h2]
        · simpa [runLoop, h1] using
            le_trans (Nat.le_succ s) (ih (some meta) (u + 1) (s + 1))

/-- Claim C1: when all 3 attempts of `RunCommand` are rejected (spawn error
yielding a nil report, nil report, or a report whose status is the
infrastructure-error code "XX"), `RunCommand` returns the report obtained on
the last attempt (possibly nil) with a nil error, after exactly 3 attempts,
each followed by the fixed backoff sleep. -/
theorem c1_retry_exhaustion (cmd : String) (args : List String)
    (o₁ o₂ o₃ : AttemptOutcome)
    (h₁ : rejectedAttempt o₁ = true) (h₂ : rejectedAttempt o₂ = true)
    (h₃ : rejectedAttempt o₃ = true) :
    RunCommand (cmd :: args) [o₁, o₂, o₃] =
      some ⟨attemptReport o₃, none, runErrRetries, runErrRetries⟩ := by
  show some (runLoop [o₁, o₂, o₃] none 0 0) = _
  rw [runLoopRejected _ _ _ _ h₁, runLoopRejected _ _ _ _ h₂, runLoopRejected _ _ _ _ h₃]
  rfl

theorem c1_retry_exhaustion_witness :
    RunCommand ["/box/a.out"]
        [AttemptOutcome.runFail, AttemptOutcome.runFail, AttemptOutcome.runFail] =
      some ⟨none, none, runErrRetries, runErrRetries⟩ :=
  c1_retry_exhaustion "/box/a.out" [] _ _ _ (by decide) (by decide) (by decide)

/-- Claim C7: an attempt whose decoded report is non-nil, has a status other
than "XX", an exit code of 127 and an `execve` marker in the primitive's
diagnostic text is treated as transient: the loop sleeps the fixed backoff
interval and retries, consuming one attempt, instead of returning that
report (the sleep counter strictly grows, which the accepting path never
does). -/
theorem c7_exec_failure_retry (m : RunStats) (rest : List AttemptOutcome)
    (last : Option RunStats) (u s : Nat)
    (h1 : m.Status ≠ "XX") (h2 : m.ExitCode = 127)
    (h3 : strContains m.InternalMessage "execve" = true) :
    runLoop (AttemptOutcome.runOk (some m) :: rest) last u s =
      runLoop rest (some m) (u + 1) (s + 1) ∧
    s < (runLoop (AttemptOutcome.runOk (some m) :: rest) last u s).sleeps := by
  have he : runLoop (AttemptOutcome.runOk (some m) :: rest) last u s =
      runLoop rest (some m) (u + 1) (s + 1) := by
    simp [runLoop, h1, h2, h3]
  refine ⟨he, ?_⟩
  rw [he]
  exact lt_of_lt_of_le (Nat.lt_succ_self s) (runLoopSleepsLe rest (some m) (u + 1) (s + 1))

theorem c7_exec_failure_retry_witness :
    runLoop [AttemptOutcome.runOk (some execveStats)] none 0 0 =
      runLoop [] (some execveStats) 1 1 ∧
    0 < (runLoop [AttemptOutcome.runOk (some execveStats)] none 0 0).sleeps :=
  c7_exec_failure_retry execveStats [] none 0 0 (by decide) (by decide) (by decide)

/-- Claim C8: decoding a report whose lines are `status:OK`, `exitcode:0`,
`time:0.042`, `cg-mem:2048` yields status "OK", exit code 0, CPU time 0.042,
memory 2048, and the killed flag false. -/
theorem c8_decoder_roundtrip :
    (parseMetaFile ["status:OK", "exitcode:0", "time:0.042", "cg-mem:2048"] "").Status = "OK" ∧
    (parseMetaFile ["status:OK", "exitcode:0", "time:0.042", "cg-mem:2048"] "").ExitCode = 0 ∧
    (parseMetaFile ["status:OK", "exitcode:0", "time:0.042", "cg-mem:2048"] "").Time =
      GoFloat.finite (mkRat 42 1000) ∧
    (parseMetaFile ["status:OK", "exitcode:0", "time:0.042", "cg-mem:2048"] "").Memory = 2048 ∧
    (parseMetaFile ["status:OK", "exitcode:0", "time:0.042", "cg-mem:2048"] "").Killed = false := by
  decide

/-- Claim C10: `RunCommand` and `MakeGoodCommand` read the first element of
the command list unguarded, so a non-empty command is a precondition: on any
non-empty list the access is in bounds and neither function panics, while on
the empty list both panic (modelled as `none`) rather than returning an
error value. -/
theorem c10_head_access (lookPath evalSymlinks : String → Except String String)
    (c : String) (cs : List String) (attempts : List AttemptOutcome) :
    (MakeGoodCommand lookPath evalSymlinks (c :: cs)).isSome = true ∧
    MakeGoodCommand lookPath evalSymlinks [] = none ∧
    (RunCommand (c :: cs) attempts).isSome = true ∧
    RunCommand [] attempts = none := by
  refine ⟨?_, rfl, rfl, rfl⟩
  simp only [MakeGoodCommand]
  split
  · rfl
  · cases hl : lookPath c with
    | error e => rfl
    | ok p =>
      cases hs : evalSymlinks p with
      | error e => simp [hs]
      | ok p2 => simp [hs]

/-! ## Facts about box creation and stdio defaulting -/

lemma stringMkData (s : String) : String.mk s.data = s := rfl

/-- Splitting a newline-free character list yields the list itself. -/
lemma splitNlNoNewline (l : List Char) (h : '\n' ∉ l) : splitNl l = [l] := by
  induction l with
  | nil => rfl
  | cons c cs ih =>
    simp only [List.mem_cons, not_or] at h
    have hc : ¬ c = '\n' := fun hh => h.1 hh.symm
    simp [splitNl, hc, ih h.2]

/-- Claim C4, counterexample: on an init invocation whose combined output
has two lines, the box root is the whole trimmed output, not the last line
the spec promises. -/
theorem c4_root_path_cex :
    New 7 [⟨"isolate: using config\n/var/local/lib/isolate/7", false, false⟩] =
      some (Except.ok ⟨"isolate: using config\n/var/local/lib/isolate/7", 7⟩) ∧
    specLastLine "isolate: using config\n/var/local/lib/isolate/7" =
      "/var/local/lib/isolate/7" ∧
    "isolate: using config\n/var/local/lib/isolate/7" ≠ "/var/local/lib/isolate/7" :=
  ⟨rfl, by decide, by decide⟩

/-- Claim C4, amended: on a successful init invocation (no self-healing
condition and no error) the returned box is bound to the caller-supplied id
and its root is the whole combined init output with surrounding white space
trimmed; when that trimmed output is a single line this is also its last
line. -/
theorem c4_root_path_amended (id : Int) (o : InitOutcome) (rest : List InitOutcome)
    (h1 : strHasPfx o.ret "Box already exists" = false)
    (h2 : strContains o.ret "incompatible control group mode" = false)
    (h3 : strHasPfx o.ret "Must be started as root" = false)
    (h4 : o.errNonNil = false) :
    New id (o :: rest) = some (Except.ok ⟨goTrimSpace o.ret, id⟩) ∧
    ('\n' ∉ (goTrimSpace o.ret).data → goTrimSpace o.ret = specLastLine o.ret) := by
  constructor
  · simp [New, h1, h2, h3, h4]
  · intro hn
    unfold specLastLine
    rw [splitNlNoNewline _ hn]
    simp [List.getLastD, stringMkData]

theorem c4_root_path_amended_witness :
    New 7 [⟨" /var/local/lib/isolate/7\n", false, false⟩] =
      some (Except.ok ⟨"/var/local/lib/isolate/7", 7⟩) ∧
    goTrimSpace " /var/local/lib/isolate/7\n" = specLastLine " /var/local/lib/isolate/7\n" := by
  have h := c4_root_path_amended 7 ⟨" /var/local/lib/isolate/7\n", false, false⟩ []
    (by decide) (by decide) (by decide) rfl
  exact ⟨h.1.trans rfl, h.2 (by decide)⟩

/-- Claim C2: an empty stdin, stdout or (unmerged) stderr path is replaced
by the null device, the substitution is written back into the returned
configuration, and the emitted stdio flags for those streams carry only the
null-device path — never an inherited stream; with the merge flag set, a
stderr-to-stdout flag is emitted and no stderr path flag at all. -/
theorem c2_stdio_null_defaults (b : Int) (c : RunConfig) (ord : List (String × String))
    (mf : Option String) :
    (c.InputPath = "" →
      (buildRunFlags b c ord mf).2.InputPath = "/dev/null" ∧
      "--stdin=/dev/null" ∈ (buildRunFlags b c ord mf).1 ∧
      (∀ s, "--stdin=" ++ s ∈ (buildRunFlags b c ord mf).1 → s = "/dev/null")) ∧
    (c.OutputPath = "" →
      (buildRunFlags b c ord mf).2.OutputPath = "/dev/null" ∧
      "--stdout=/dev/null" ∈ (buildRunFlags b c ord mf).1 ∧
      (∀ s, "--stdout=" ++ s ∈ (buildRunFlags b c ord mf).1 → s = "/dev/null")) ∧
    (c.StderrToStdout = false → c.StderrPath = "" →
      (buildRunFlags b c ord mf).2.StderrPath = "/dev/null" ∧
      "--stderr=/dev/null" ∈ (buildRunFlags b c ord mf).1 ∧
      (∀ s, "--stderr=" ++ s ∈ (buildRunFlags b c ord mf).1 → s = "/dev/null")) ∧
    (c.StderrToStdout = true →
      "--stderr-to-stdout" ∈ (buildRunFlags b c ord mf).1 ∧
      (∀ s, "--stderr=" ++ s ∉ (buildRunFlags b c ord mf).1)) := by
  refine ⟨fun hIn => ?_, fun hOut => ?_, fun hm hErr => ?_, fun hm => ?_⟩
  · have heff : effIn c = "/dev/null" := by simp [effIn, hIn]
    refine ⟨by rw [buildRunFlagsConf]; exact heff, ?_, fun s hs => (stdinUnique hs).trans heff⟩
    have h := stdinMem b c ord mf
    rw [heff] at h
    exact h
  · have heff : effOut c = "/dev/null" := by simp [effOut, hOut]
    refine ⟨by rw [buildRunFlagsConf]; exact heff, ?_, fun s hs => (stdoutUnique hs).trans heff⟩
    have h := stdoutMem b c ord mf
    rw [heff] at h
    exact h
  · have heff : effErr c = "/dev/null" := by simp [effErr, hm, hErr]
    refine ⟨by rw [buildRunFlagsConf]; exact heff, ?_, fun s hs => (stderrUnique hs).trans heff⟩
    have h := stderrMem b c ord mf hm
    rw [heff] at h
    exact h
  · exact ⟨stderrToStdoutMem b c ord mf hm, fun s => stderrNotMem hm s⟩

theorem c2_stdio_null_defaults_witness :
    (buildRunFlags 0 baseConf [] none).2.InputPath = "/dev/null" ∧
    (buildRunFlags 0 baseConf [] none).2.StderrPath = "/dev/null" ∧
    "--stdin=/dev/null" ∈ (buildRunFlags 0 baseConf [] none).1 :=
  ⟨((c2_stdio_null_defaults 0 baseConf [] none).1 rfl).1,
   (((c2_stdio_null_defaults 0 baseConf [] none).2.2.1 rfl) rfl).1,
   ((c2_stdio_null_defaults 0 baseConf [] none).1 rfl).2.1⟩

/-! ## Directory-rule and limit-rendering facts -/

/-- Claim C5: the flag list contains exactly one directory flag per rule, in
list order; a remove rule emits a bind-removal flag carrying only the inside
path; an add rule with empty outside path defaults it to the inside path
unless verbatim is set, in which case no outside path is emitted; a
non-empty outside path is emitted as given; a non-empty options string is
appended as a suffix (and never to a remove rule). -/
theorem c5_directory_rules (b : Int) (c : RunConfig) (ord : List (String × String))
    (mf : Option String) :
    (∃ pre post, (buildRunFlags b c ord mf).1 = pre ++ c.Directories.map dirFlag ++ post) ∧
    (∀ d : Directory, d.Removes = true → dirFlag d = "--dir=" ++ d.In ++ "=") ∧
    (∀ d : Directory, d.Removes = false → d.Out = "" → d.Verbatim = false →
      dirFlag d = "--dir=" ++ d.In ++ "=" ++ d.In ++ optsSuffix d) ∧
    (∀ d : Directory, d.Removes = false → d.Out = "" → d.Verbatim = true →
      dirFlag d = "--dir=" ++ d.In ++ optsSuffix d) ∧
    (∀ d : Directory, d.Removes = false → d.Out ≠ "" →
      dirFlag d = "--dir=" ++ d.In ++ "=" ++ d.Out ++ optsSuffix d) := by
  refine ⟨⟨["--box-id=" ++ toString b] ++ ["--cg", "--processes"], ?_, ?_⟩, ?_, ?_, ?_, ?_⟩
  · exact (if c.InheritEnv then ["--full-env"] else [])
      ++ c.EnvToInherit.map (fun env => "--env=" ++ env)
      ++ ord.map (fun kv => "--env=" ++ kv.1 ++ "=" ++ kv.2)
      ++ (if c.TimeLimit.m ≠ 0 then ["--time=" ++ Dec.format c.TimeLimit] else [])
      ++ (if c.WallTimeLimit.m ≠ 0 then ["--wall-time=" ++ Dec.format c.WallTimeLimit] else [])
      ++ (if c.MemoryLimit ≠ 0 then ["--cg-mem=" ++ toString c.MemoryLimit] else [])
      ++ ["--stdin=" ++ effIn c, "--stdout=" ++ effOut c]
      ++ (if c.StderrToStdout then ["--stderr-to-stdout"] else ["--stderr=" ++ effErr c])
      ++ metaFlags mf ++ ["--silent", "--run", "--"]
  · rw [buildRunFlagsEq]
    simp [List.append_assoc]
  · intro d h
    simp [dirFlag, h]
  · intro d h ho hv
    by_cases hopts : d.Opts = "" <;>
      simp [dirFlag, optsSuffix, h, ho, hv, hopts, String.append_assoc]
  · intro d h ho hv
    by_cases hopts : d.Opts = "" <;>
      simp [dirFlag, optsSuffix, h, ho, hv, hopts, String.append_assoc]
  · intro d h ho
    by_cases hopts : d.Opts = "" <;>
      simp [dirFlag, optsSuffix, h, ho, hopts, String.append_assoc]

theorem c5_directory_rules_witness :
    dirFlag ⟨"/etc", "", "", true, false⟩ = "--dir=/etc=" ∧
    dirFlag ⟨"/a", "", "rw", false, false⟩ = "--dir=/a=/a:rw" ∧
    dirFlag ⟨"/b", "", "", false, true⟩ = "--dir=/b" ∧
    dirFlag ⟨"/in", "/out", "", false, false⟩ = "--dir=/in=/out" :=
  ⟨((c5_directory_rules 0 baseConf [] none).2.1 _ rfl).trans (by decide),
   ((c5_directory_rules 0 baseConf [] none).2.2.1 _ rfl rfl rfl).trans (by decide),
   ((c5_directory_rules 0 baseConf [] none).2.2.2.1 _ rfl rfl rfl).trans (by decide),
   ((c5_directory_rules 0 baseConf [] none).2.2.2.2 _ rfl (by decide)).trans (by decide)⟩

/-- Stripping factors of ten preserves the denoted rational value. -/
lemma stripZerosVal : ∀ (e : Nat) (m : Int),
    mkRat (stripZeros m e).1 (10 ^ (stripZeros m e).2) = mkRat m (10 ^ e) := by
  intro e
  induction e with
  | zero => intro m; rfl
  | succ e ih =>
    intro m
    by_cases h : m % 10 = 0
    · obtain ⟨k, hk⟩ := Int.dvd_of_emod_eq_zero h
      have hstep : stripZeros m (e + 1) = stripZeros k e := by
        have hdiv : m / 10 = k := by
          rw [hk]
          exact Int.mul_ediv_cancel_left k (by norm_num)
        simp [stripZeros, h, hdiv]
      rw [hstep, ih k, Rat.mkRat_eq_div, Rat.mkRat_eq_div, hk, pow_succ]
      push_cast
      rw [mul_comm (10 : ℚ) (k : ℚ), mul_div_mul_right _ _ (by norm_num : (10 : ℚ) ≠ 0)]
    · simp [stripZeros, h]

/-- Claim C6: a zero CPU-time, wall-time or memory limit emits no
corresponding flag at all; a non-zero CPU-time limit emits exactly one time
flag rendered in the minimal decimal form (the normalization preserves the
denoted value, and 1.5 — whether stored as 1.5, 1.50 or 1.500000 — renders
as "1.5"); a non-zero memory limit emits exactly one control-group memory
flag rendered as a plain integer. -/
theorem c6_limit_rendering (b : Int) (c : RunConfig) (ord : List (String × String))
    (mf : Option String) :
    (c.TimeLimit.m = 0 → ∀ s, "--time=" ++ s ∉ (buildRunFlags b c ord mf).1) ∧
    (c.WallTimeLimit.m = 0 → ∀ s, "--wall-time=" ++ s ∉ (buildRunFlags b c ord mf).1) ∧
    (c.MemoryLimit = 0 → ∀ s, "--cg-mem=" ++ s ∉ (buildRunFlags b c ord mf).1) ∧
    (c.TimeLimit.m ≠ 0 →
      "--time=" ++ Dec.format c.TimeLimit ∈ (buildRunFlags b c ord mf).1 ∧
      (∀ s, "--time=" ++ s ∈ (buildRunFlags b c ord mf).1 → s = Dec.format c.TimeLimit)) ∧
    (c.MemoryLimit ≠ 0 →
      "--cg-mem=" ++ toString c.MemoryLimit ∈ (buildRunFlags b c ord mf).1 ∧
      (∀ s, "--cg-mem=" ++ s ∈ (buildRunFlags b c ord mf).1 → s = toString c.MemoryLimit)) ∧
    (∀ d : Dec, Dec.toRat ⟨(stripZeros d.m d.e).1, (stripZeros d.m d.e).2⟩ = Dec.toRat d) ∧
    Dec.format ⟨15, 1⟩ = "1.5" ∧ Dec.format ⟨150, 2⟩ = "1.5" ∧
    Dec.format ⟨1500000, 6⟩ = "1.5" := by
  refine ⟨fun h0 s => timeNotMem h0 s, fun h0 s => wallNotMem h0 s,
    fun h0 s => memNotMem h0 s,
    fun hnz => ⟨timeMem b c ord mf hnz, fun s hs => timeUnique hs⟩,
    fun hnz => ⟨cgMemMem b c ord mf hnz, fun s hs => memUnique hs⟩,
    fun d => stripZerosVal d.e d.m, by decide, by decide, by decide⟩

theorem c6_limit_rendering_witness :
    "--time=1.5" ∈ (buildRunFlags 0 c6Conf [] none).1 ∧
    "--cg-mem=65536" ∈ (buildRunFlags 0 c6Conf [] none).1 :=
  ⟨((c6_limit_rendering 0 c6Conf [] none).2.2.2.1 (by decide)).1,
   ((c6_limit_rendering 0 c6Conf [] none).2.2.2.2.1 (by decide)).1⟩

/-! ## Environment-flag ordering facts -/

/-- The flag list split around the explicit-environment segment. -/
lemma buildRunFlagsEnvSplit (b : Int) (c : RunConfig) (ord : List (String × String))
    (mf : Option String) :
    (buildRunFlags b c ord mf).1 =
      (["--box-id=" ++ toString b] ++ ["--cg", "--processes"] ++ c.Directories.map dirFlag
        ++ (if c.InheritEnv then ["--full-env"] else [])
        ++ c.EnvToInherit.map (fun env => "--env=" ++ env))
      ++ (ord.map (fun kv => "--env=" ++ kv.1 ++ "=" ++ kv.2)
        ++ ((if c.TimeLimit.m ≠ 0 then ["--time=" ++ Dec.format c.TimeLimit] else [])
          ++ (if c.WallTimeLimit.m ≠ 0 then ["--wall-time=" ++ Dec.format c.WallTimeLimit]
              else [])
          ++ (if c.MemoryLimit ≠ 0 then ["--cg-mem=" ++ toString c.MemoryLimit] else [])
          ++ ["--stdin=" ++ effIn c, "--stdout=" ++ effOut c]
          ++ (if c.StderrToStdout then ["--stderr-to-stdout"] else ["--stderr=" ++ effErr c])
          ++ metaFlags mf ++ ["--silent", "--run", "--"])) := by
  rw [buildRunFlagsEq]
  simp [List.append_assoc]

/-- Claim C3, counterexample: `buildRunFlags` iterates the `EnvToSet` Go map
with `range`, whose enumeration order is unspecified; two enumeration orders
of the same two-entry map — both valid for equal inputs — produce different
flag lists, so the function is not deterministic in its inputs alone. -/
theorem c3_determinism_cex :
    List.Perm [("A", "1"), ("B", "2")] c3Conf.EnvToSet ∧
    List.Perm [("B", "2"), ("A", "1")] c3Conf.EnvToSet ∧
    buildRunFlags 0 c3Conf [("A", "1"), ("B", "2")] none ≠
      buildRunFlags 0 c3Conf [("B", "2"), ("A", "1")] none := by
  decide

/-- Claim C3, amended: `buildRunFlags` is deterministic given the map
enumeration order — equal inputs and equal enumeration orders give identical
flag lists; for any two enumeration orders of `EnvToSet` the two flag lists
are permutations of each other; and the environment flags appear as the
full-inherit flag, then one flag per inherited name in list order, then one
flag per explicit key=value pair in enumeration order. -/
theorem c3_env_flags_amended (b : Int) (c : RunConfig) (mf : Option String)
    (ord₁ ord₂ : List (String × String))
    (h₁ : List.Perm ord₁ c.EnvToSet) (h₂ : List.Perm ord₂ c.EnvToSet) :
    List.Perm (buildRunFlags b c ord₁ mf).1 (buildRunFlags b c ord₂ mf).1 ∧
    (ord₁ = ord₂ → buildRunFlags b c ord₁ mf = buildRunFlags b c ord₂ mf) ∧
    (∃ pre post, (buildRunFlags b c ord₁ mf).1 =
      pre ++ ((if c.InheritEnv then ["--full-env"] else [])
        ++ c.EnvToInherit.map (fun env => "--env=" ++ env)
        ++ ord₁.map (fun kv => "--env=" ++ kv.1 ++ "=" ++ kv.2)) ++ post) := by
  refine ⟨?_, fun he => by rw [he], ?_⟩
  · rw [buildRunFlagsEnvSplit b c ord₁ mf, buildRunFlagsEnvSplit b c ord₂ mf]
    exact (((h₁.trans h₂.symm).map _).append_right _).append_left _
  · refine ⟨["--box-id=" ++ toString b] ++ ["--cg", "--processes"]
      ++ c.Directories.map dirFlag,
      (if c.TimeLimit.m ≠ 0 then ["--time=" ++ Dec.format c.TimeLimit] else [])
        ++ (if c.WallTimeLimit.m ≠ 0 then ["--wall-time=" ++ Dec.format c.WallTimeLimit]
            else [])
        ++ (if c.MemoryLimit ≠ 0 then ["--cg-mem=" ++ toString c.MemoryLimit] else [])
        ++ ["--stdin=" ++ effIn c, "--stdout=" ++ effOut c]
        ++ (if c.StderrToStdout then ["--stderr-to-stdout"] else ["--stderr=" ++ effErr c])
        ++ metaFlags mf ++ ["--silent", "--run", "--"], ?_⟩
    rw [buildRunFlagsEq]
    simp [List.append_assoc]

theorem c3_env_flags_amended_witness :
    List.Perm (buildRunFlags 0 c3Conf [("A", "1"), ("B", "2")] none).1
      (buildRunFlags 0 c3Conf [("B", "2"), ("A", "1")] none).1 :=
  (c3_env_flags_amended 0 c3Conf none [("A", "1"), ("B", "2")] [("B", "2"), ("A", "1")]
    (by decide) (by decide)).1

/-! ## Decoder robustness facts -/

/-- A line without the `key:value` separator leaves the report unchanged. -/
lemma parseLineNoSep (file : RunStats) (line : String) (h : goCut line = none) :
    parseLine file line = file := by
  simp [parseLine, h]

/-- A line whose key is not one of the seven field-mutating keys leaves the
report unchanged. -/
lemma parseLineUnknownKey (file : RunStats) (line key val : String)
    (h : goCut line = some (key, val))
    (hk : key ∉ (["cg-mem", "exitcode", "exitsig", "killed", "message", "status", "time"] :
      List String)) :
    parseLine file line = file := by
  simp only [List.mem_cons, List.mem_singleton, not_or] at hk
  obtain ⟨k1, k2, k3, k4, k5, k6, k7⟩ := hk
  simp [parseLine, h, k1, k2, k3, k4, k5, k6, k7]

/-- A syntactically invalid integer parses to zero. -/
lemma goAtoiInvalid (val : String) (h : intSyntaxOK val = false) : goAtoi val = 0 := by
  unfold goAtoi intSyntaxOK at *
  rcases hp : parseSign val.data with ⟨sgn, ds⟩
  simp only [] at h ⊢
  cases hie : ds.isEmpty <;> cases hall : ds.all Char.isDigit <;> simp_all

/-- A string `ParseFloat` rejects parses to zero. -/
lemma goParseFloatInvalid (val : String) (h : floatSyntaxOK val = false) :
    goParseFloat val = GoFloat.finite 0 := by
  unfold goParseFloat floatSyntaxOK at *
  cases hc : parseFloatCore val.data with
  | none => simp [hc]
  | some f => simp [hc] at h

/-- The full `ParseFloat` grammar is modelled: infinities and NaN
(case-insensitive), digit-group underscores and hexadecimal floats all
parse as in Go, and a signed `nan` stays rejected as in Go. -/
lemma goParseFloatAccepted :
    goParseFloat "inf" = GoFloat.posInf ∧
    goParseFloat "-Infinity" = GoFloat.negInf ∧
    goParseFloat "NaN" = GoFloat.nan ∧
    goParseFloat "1_2.5" = GoFloat.finite (mkRat 25 2) ∧
    goParseFloat "0x1p-2" = GoFloat.finite (mkRat 1 4) ∧
    goParseFloat "0x1.8p1" = GoFloat.finite 3 ∧
    floatSyntaxOK "inf" = true ∧ floatSyntaxOK "+nan" = false ∧
    floatSyntaxOK "1_2.5" = true ∧ floatSyntaxOK "_12" = false := by
  decide

/-- Claim C9: the decoder is total and robust — a line without the
`key:value` separator is skipped, a line with an unrecognized key is skipped
without altering anything parsed from other lines, and a recognized numeric
key with a malformed value sets that field to zero instead of failing. -/
theorem c9_decoder_robustness :
    (∀ (file : RunStats) (line : String), goCut line = none → parseLine file line = file) ∧
    (∀ (file : RunStats) (line key val : String), goCut line = some (key, val) →
      key ∉ (["cg-mem", "exitcode", "exitsig", "killed", "message", "status", "time"] :
        List String) →
      parseLine file line = file) ∧
    (∀ (pre post : List String) (bad isolateOut : String),
      (goCut bad = none ∨ ∃ key val, goCut bad = some (key, val) ∧
        key ∉ (["cg-mem", "exitcode", "exitsig", "killed", "message", "status", "time"] :
          List String)) →
      parseMetaFile (pre ++ bad :: post) isolateOut = parseMetaFile (pre ++ post) isolateOut) ∧
    (∀ (file : RunStats) (line val : String), goCut line = some ("cg-mem", val) →
      intSyntaxOK val = false → (parseLine file line).Memory = 0) ∧
    (∀ (file : RunStats) (line val : String), goCut line = some ("exitcode", val) →
      intSyntaxOK val = false → (parseLine file line).ExitCode = 0) ∧
    (∀ (file : RunStats) (line val : String), goCut line = some ("exitsig", val) →
      intSyntaxOK val = false → (parseLine file line).ExitSignal = 0) ∧
    (∀ (file : RunStats) (line val : String), goCut line = some ("time", val) →
      floatSyntaxOK val = false → (parseLine file line).Time = GoFloat.finite 0) := by
  refine ⟨parseLineNoSep, parseLineUnknownKey, ?_, ?_, ?_, ?_, ?_⟩
  · intro pre post bad out hbad
    have hb : parseLine (List.foldl parseLine (emptyStats out) pre) bad =
        List.foldl parseLine (emptyStats out) pre := by
      rcases hbad with h | ⟨key, val, h, hk⟩
      · exact parseLineNoSep _ _ h
      · exact parseLineUnknownKey _ _ _ _ h hk
    unfold parseMetaFile
    rw [List.foldl_append, List.foldl_append]
    simp only [List.foldl_cons]
    rw [hb]
  · intro file line val h hsyn
    simp [parseLine, h, goAtoiInvalid val hsyn]
  · intro file line val h hsyn
    simp [parseLine, h, goAtoiInvalid val hsyn]
  · intro file line val h hsyn
    simp [parseLine, h, goAtoiInvalid val hsyn]
  · intro file line val h hsyn
    simp [parseLine, h, goParseFloatInvalid val hsyn]

theorem c9_decoder_robustness_witness :
    parseLine (emptyStats "") "no separator here" = emptyStats "" ∧
    parseLine (emptyStats "") "wall-time:1.2" = emptyStats "" ∧
    (parseLine (emptyStats "") "cg-mem:12abc").Memory = 0 ∧
    (parseLine (emptyStats "") "time:1.2.3").Time = GoFloat.finite 0 :=
  ⟨c9_decoder_robustness.1 _ _ (by decide),
   c9_decoder_robustness.2.1 _ _ "wall-time" "1.2" (by decide) (by decide),
   c9_decoder_robustness.2.2.2.1 _ _ "12abc" (by decide) (by decide),
   c9_decoder_robustness.2.2.2.2.2.2 _ _ "1.2.3" (by decide) (by decide)⟩
